import Mathlib

/-
  Verification of the review-to-rating aggregation workflow and the
  hierarchical category management of the FastAPI e-commerce backend.

  The embedding translates the request handlers of
  app/routers/categories.py, app/routers/products.py and
  app/routers/reviews.py over the relational rows declared in
  app/models/categories.py, app/models/products.py and
  app/models/reviews.py.  The database session is modelled as an explicit
  record of the three tables plus the auto-increment counters of their
  primary keys; `db.scalar(select(...).where(...))` becomes `List.find?`,
  a SQL `UPDATE ... WHERE` becomes a pointwise `List.map`, and a handler
  that raises `HTTPException` returns `Except.error` carrying the HTTP
  status code and detail string of the exception (a raised exception rolls
  the transaction back, so the caller keeps the pre-request state).
  SQL floats are modelled as exact rationals.
-/

namespace Shop

/-- A row of the `categories` table (app/models/categories.py). -/
structure Category where
  id : Nat
  name : String
  parent_id : Option Nat
  is_active : Bool
deriving Repr, DecidableEq

/-- A row of the `products` table (app/models/products.py). -/
structure Product where
  id : Nat
  name : String
  description : Option String
  price : ℚ
  image_url : Option String
  stock : Int
  is_active : Bool
  rating : ℚ
  category_id : Nat
  seller_id : Nat
deriving Repr, DecidableEq

/-- A row of the `reviews` table (app/models/reviews.py).  The
`comment_date` column is ignored: no handler reads or compares it. -/
structure Review where
  id : Nat
  user_id : Nat
  product_id : Nat
  comment : String
  grade : Int
  is_active : Bool
deriving Repr, DecidableEq

/-- The relational store: the three tables together with the
auto-increment counters for their primary keys. -/
structure DBState where
  categories : List Category
  products : List Product
  reviews : List Review
  nextCategoryId : Nat
  nextProductId : Nat
  nextReviewId : Nat
deriving Repr, DecidableEq

/-- A raised `HTTPException`: status code and detail string. -/
structure ApiError where
  status : Nat
  detail : String
deriving Repr, DecidableEq

/-- SQL `ROUND(q, 2)` on the (positive) review averages: round half up
to two decimal places. -/
def round2 (q : ℚ) : ℚ := (⌊q * 100 + 1 / 2⌋ : ℤ) / 100

/-- The grades of the active reviews of a product, as selected by
`select(func.avg(ReviewModel.grade)).where(ReviewModel.is_active,
ReviewModel.product_id == pid)`. -/
def activeGrades (reviews : List Review) (pid : Nat) : List Int :=
  (reviews.filter (fun r => r.is_active && r.product_id == pid)).map Review.grade

/-- SQL `AVG(grade)` over the active reviews of a product: `none`
(SQL NULL) when the set is empty. -/
def avgGrade (reviews : List Review) (pid : Nat) : Option ℚ :=
  let gs := activeGrades reviews pid
  if gs.isEmpty then none
  else some ((gs.foldl (· + ·) 0 : ℤ) / (gs.length : ℚ))

/-- The `check_grade_range` constraint of app/models/reviews.py:
`grade >= 1 AND grade <= 5`, enforced by the store at commit. -/
def gradeInRange (g : Int) : Bool := 1 ≤ g && g ≤ 5

/-- Modelled from the spec: the request body of `POST /reviews`
(`app/schemas.py` is not among the verified sources; section 3 of the
spec lists user-supplied review fields product_id, comment, grade). -/
structure ReviewCreate where
  product_id : Nat
  comment : String
  grade : Int
deriving Repr, DecidableEq

/-- Modelled from the spec: the request body of `POST /categories` is
`{name, parent_id?}` (section 6 of the spec). -/
structure CategoryCreate where
  name : String
  parent_id : Option Nat
deriving Repr, DecidableEq

/-- Modelled from the spec: the request body of `PUT /categories/{id}`
with `exclude_unset` semantics: `parent_field = none` when the client
omitted parent_id, `some v` when the client supplied it as `v`. -/
structure CategoryUpdateBody where
  name : String
  parent_field : Option (Option Nat)
deriving Repr, DecidableEq

/-- Modelled from the spec: the request body of `POST /products` and
`PUT /products/{id}` (section 3 of the spec: name, description, price,
stock, category_id; image_url from app/models/products.py).  It carries
neither `is_active` nor `rating`: the spec reserves those for
soft-deletion and the Rating Aggregator. -/
structure ProductCreate where
  name : String
  description : Option String
  price : ℚ
  image_url : Option String
  stock : Int
  category_id : Option Nat
deriving Repr, DecidableEq

/-- `create_review` of app/routers/reviews.py.  The commit of the new
review row enforces the `check_grade_range` constraint; an
`IntegrityError` is answered with a rollback and a 400 response.  After
a successful commit the handler recomputes the average grade over the
active reviews of the product and writes its 2-decimal rounding into
`Product.rating`.  (The average is taken after the insert, so the set is
nonempty and the `Option.getD 0` default is never used.) -/
def createReview (s : DBState) (buyerId : Nat) (body : ReviewCreate) :
    Except ApiError (Review × DBState) :=
  match s.products.find? (fun p => p.id == body.product_id && p.is_active) with
  | none =>
      .error ⟨404, "Product with id " ++ toString body.product_id ++ " does not exist."⟩
  | some _ =>
      if !gradeInRange body.grade then
        .error ⟨400, "Integrity Error: check_grade_range"⟩
      else
        let dbReview : Review :=
          { id := s.nextReviewId, user_id := buyerId,
            product_id := body.product_id, comment := body.comment,
            grade := body.grade, is_active := true }
        let reviews' := s.reviews ++ [dbReview]
        let newRating := round2 ((avgGrade reviews' body.product_id).getD 0)
        let products' := s.products.map (fun p =>
          if p.id == body.product_id then { p with rating := newRating } else p)
        .ok (dbReview,
          { s with reviews := reviews', products := products',
                   nextReviewId := s.nextReviewId + 1 })

/-- `delete_review` of app/routers/reviews.py: mark the review inactive,
recompute the average over the remaining active reviews of its product
(`0` when `AVG` returns NULL) and write the rounded value into
`Product.rating`. -/
def deleteReview (s : DBState) (reviewId : Nat) :
    Except ApiError (String × DBState) :=
  match s.reviews.find? (fun r => r.is_active && r.id == reviewId) with
  | none =>
      .error ⟨404, "Review with id " ++ toString reviewId ++ " does not exist."⟩
  | some review =>
      let reviews' := s.reviews.map (fun r =>
        if r.id == reviewId then { r with is_active := false } else r)
      let newRating := round2 ((avgGrade reviews' review.product_id).getD 0)
      let products' := s.products.map (fun p =>
        if p.id == review.product_id then { p with rating := newRating } else p)
      .ok ("Review marked as inactive",
        { s with reviews := reviews', products := products' })

/-- `create_category` of app/routers/categories.py: when a parent_id is
supplied it must name an existing active category (rejected with a 400
"Parent category not found" otherwise); the new row takes the
auto-increment id and is active by default. -/
def createCategory (s : DBState) (body : CategoryCreate) :
    Except ApiError (Category × DBState) :=
  let parentOk : Except ApiError Unit :=
    match body.parent_id with
    | none => .ok ()
    | some pid =>
        match s.categories.find? (fun c => c.id == pid && c.is_active) with
        | none => .error ⟨400, "Parent category not found"⟩
        | some _ => .ok ()
  match parentOk with
  | .error e => .error e
  | .ok _ =>
      let dbCategory : Category :=
        { id := s.nextCategoryId, name := body.name,
          parent_id := body.parent_id, is_active := true }
      .ok (dbCategory,
        { s with categories := s.categories ++ [dbCategory],
                 nextCategoryId := s.nextCategoryId + 1 })

/-- `update_category` of app/routers/categories.py: the target must be
an existing active category; a supplied non-null parent_id must name an
existing category (looked up without an is_active filter) and must not
equal the target's own id; the update then writes the supplied fields
to the target row. -/
def updateCategory (s : DBState) (categoryId : Nat) (body : CategoryUpdateBody) :
    Except ApiError (Category × DBState) :=
  match s.categories.find? (fun c => c.id == categoryId && c.is_active) with
  | none => .error ⟨404, "Category not found"⟩
  | some dbCategory =>
      let parentCheck : Except ApiError Unit :=
        match body.parent_field with
        | some (some pid) =>
            match s.categories.find? (fun c => c.id == pid) with
            | none => .error ⟨404, "Parent category not found"⟩
            | some parent =>
                if parent.id == categoryId then
                  .error ⟨400, "Category cannot be its own parent"⟩
                else .ok ()
        | _ => .ok ()
      match parentCheck with
      | .error e => .error e
      | .ok _ =>
          let categories' := s.categories.map (fun c =>
            if c.id == categoryId then
              { c with name := body.name,
                       parent_id := (body.parent_field).getD c.parent_id }
            else c)
          .ok (dbCategory, { s with categories := categories' })

/-- `delete_category` of app/routers/categories.py: soft-delete the
target active category by setting `is_active = False` on its row only. -/
def deleteCategory (s : DBState) (categoryId : Nat) :
    Except ApiError (String × DBState) :=
  match s.categories.find? (fun c => c.id == categoryId && c.is_active) with
  | none => .error ⟨404, "Category not found"⟩
  | some _ =>
      let categories' := s.categories.map (fun c =>
        if c.id == categoryId then { c with is_active := false } else c)
      .ok ("Category with ID " ++ toString categoryId ++ " marked as inactive",
        { s with categories := categories' })

/-- `get_all_products` of app/routers/products.py: the active products. -/
def getAllProducts (s : DBState) : List Product :=
  s.products.filter (fun p => p.is_active)

/-- The ids of the active immediate children of a category, as selected
by `select(CategoryModel.id).where(CategoryModel.parent_id == category_id,
CategoryModel.is_active)`. -/
def activeChildIds (s : DBState) (categoryId : Nat) : List Nat :=
  (s.categories.filter (fun c => c.parent_id == some categoryId && c.is_active)).map
    Category.id

/-- `get_products_by_category` of app/routers/products.py.  The source's
`if child_ids is None` branch is dead code — `ScalarResult.all()` always
returns a list — so the handler always takes the `else` branch and
selects products with `category_id IN (category_id :: child_ids)`
without any `is_active` filter on the products. -/
def getProductsByCategory (s : DBState) (categoryId : Nat) :
    Except ApiError (List Product) :=
  match s.categories.find? (fun c => c.id == categoryId && c.is_active) with
  | none => .error ⟨404, "Category not found"⟩
  | some _ =>
      let categoryIds := categoryId :: activeChildIds s categoryId
      .ok (s.products.filter (fun p => categoryIds.contains p.category_id))

/-- `get_product` of app/routers/products.py: point lookup of an active
product. -/
def getProduct (s : DBState) (productId : Nat) : Except ApiError Product :=
  match s.products.find? (fun p => p.id == productId && p.is_active) with
  | none => .error ⟨404, "Product not found"⟩
  | some p => .ok p

/-- `create_product` of app/routers/products.py: a supplied category_id
must name an existing active category; the new row takes the seller's id
and is active by default with rating 0. -/
def createProduct (s : DBState) (sellerId : Nat) (body : ProductCreate) :
    Except ApiError (Product × DBState) :=
  let categoryOk : Except ApiError Unit :=
    match body.category_id with
    | none => .ok ()
    | some cid =>
        match s.categories.find? (fun c => c.id == cid && c.is_active) with
        | none => .error ⟨404, "Category not found"⟩
        | some _ => .ok ()
  match categoryOk with
  | .error e => .error e
  | .ok _ =>
      let dbProduct : Product :=
        { id := s.nextProductId, name := body.name,
          description := body.description, price := body.price,
          image_url := body.image_url, stock := body.stock,
          is_active := true, rating := 0,
          category_id := body.category_id.getD 0, seller_id := sellerId }
      .ok (dbProduct,
        { s with products := s.products ++ [dbProduct],
                 nextProductId := s.nextProductId + 1 })

/-- `update_product` of app/routers/products.py.  The target is looked
up by id alone — no `is_active` filter — then the ownership check
compares `product.seller_id` with the authenticated seller's id, and a
supplied category_id must name an existing active category; the update
then writes the body's fields to the target row (a null category_id is
kept out of the written values by `exclude_unset`). -/
def updateProduct (s : DBState) (sellerId productId : Nat) (body : ProductCreate) :
    Except ApiError (Product × DBState) :=
  match s.products.find? (fun p => p.id == productId) with
  | none => .error ⟨404, "Product not found"⟩
  | some product =>
      if product.seller_id != sellerId then
        .error ⟨403, "You can only update your products"⟩
      else
        let categoryOk : Except ApiError Unit :=
          match body.category_id with
          | none => .ok ()
          | some cid =>
              match s.categories.find? (fun c => c.id == cid && c.is_active) with
              | none => .error ⟨404, "Category not found"⟩
              | some _ => .ok ()
        match categoryOk with
        | .error e => .error e
        | .ok _ =>
            let products' := s.products.map (fun p =>
              if p.id == productId then
                { p with name := body.name, description := body.description,
                         price := body.price, image_url := body.image_url,
                         stock := body.stock,
                         category_id := body.category_id.getD p.category_id }
              else p)
            .ok (product, { s with products := products' })

/-- `delete_product` of app/routers/products.py: the target is looked up
with the `is_active` filter, the ownership check compares seller ids,
and the soft-delete sets `is_active = False` on the target row. -/
def deleteProduct (s : DBState) (sellerId productId : Nat) :
    Except ApiError (String × DBState) :=
  match s.products.find? (fun p => p.id == productId && p.is_active) with
  | none => .error ⟨404, "Product not found"⟩
  | some product =>
      if product.seller_id != sellerId then
        .error ⟨403, "You can only delete your products"⟩
      else
        let products' := s.products.map (fun p =>
          if p.id == productId then { p with is_active := false } else p)
        .ok ("Product marked as inactive", { s with products := products' })

/-- The rating the spec demands for a product: the 2-decimal rounded
average of the grades over its active reviews, 0 when there are none. -/
def specRating (reviews : List Review) (pid : Nat) : ℚ :=
  match avgGrade reviews pid with
  | none => 0
  | some a => round2 a

/-- The spec's invariant on the category tree: no category is its own
parent. -/
def NoSelfParent (s : DBState) : Prop :=
  ∀ c ∈ s.categories, c.parent_id ≠ some c.id

/-- Well-formedness of the auto-increment counter of `categories`: every
existing row's primary key is below the next generated key. -/
def CategoryIdsFresh (s : DBState) : Prop :=
  ∀ c ∈ s.categories, c.id < s.nextCategoryId

/-- A root category used in the concrete witness states. -/
def catA : Category := { id := 1, name := "A", parent_id := none, is_active := true }

/-- A child category of `catA` used in the concrete witness states. -/
def catB : Category := { id := 2, name := "B", parent_id := some 1, is_active := true }

/-- An active product of seller 1 in category 1. -/
def prod1 : Product :=
  { id := 1, name := "P1", description := none, price := 10, image_url := none,
    stock := 5, is_active := true, rating := 4, category_id := 1, seller_id := 1 }

/-- An inactive (soft-deleted) product of seller 1 in category 2. -/
def prod2 : Product :=
  { id := 2, name := "P2", description := none, price := 20, image_url := none,
    stock := 3, is_active := false, rating := 0, category_id := 2, seller_id := 1 }

/-- An active grade-4 review of product 1 by user 2. -/
def rev1 : Review :=
  { id := 1, user_id := 2, product_id := 1, comment := "ok", grade := 4,
    is_active := true }

/-- The concrete store used by the witness theorems: categories A and B
(B a child of A), an active and an inactive product, one active review. -/
def sampleState : DBState :=
  { categories := [catA, catB], products := [prod1, prod2], reviews := [rev1],
    nextCategoryId := 3, nextProductId := 3, nextReviewId := 2 }

/-- The sample store after deactivating its only review: product 1 keeps
no active review and its rating is recomputed to round2 0 = 0. -/
def sampleStateAfterDelete : DBState :=
  { sampleState with
      reviews := [{ rev1 with is_active := false }],
      products := [{ prod1 with rating := round2 0 }, prod2] }

/-- The grade-2 review inserted by the C1 witness (fresh id 2, buyer 3). -/
def rev2 : Review :=
  { id := 2, user_id := 3, product_id := 1, comment := "meh", grade := 2,
    is_active := true }

/-- The sample store after creating `rev2`: product 1's rating becomes
the rounded average of grades 4 and 2. -/
def sampleStateAfterCreateReview : DBState :=
  { sampleState with
      reviews := [rev1, rev2],
      products := [{ prod1 with
                      rating := round2 ((avgGrade [rev1, rev2] 1).getD 0) }, prod2],
      nextReviewId := 3 }

/-- The category created by the C4 and C5 witnesses: child of category 1
with the fresh id 3. -/
def catC : Category := { id := 3, name := "C", parent_id := some 1, is_active := true }

/-- The sample store after creating `catC`. -/
def sampleStateAfterCreate : DBState :=
  { sampleState with categories := sampleState.categories ++ [catC],
                     nextCategoryId := 4 }

/-- The sample store after deactivating category 1. -/
def sampleStateAfterCatDelete : DBState :=
  { sampleState with categories := [{ catA with is_active := false }, catB] }

/-- Claim C6: deactivating an existing active category succeeds and the
resulting store differs from the old one only in the `categories` table,
where exactly the rows with the target id have `is_active` set to false
and keep every other field; child categories (their `parent_id` rows are
untouched by the map) and the `products` and `reviews` tables are
unchanged. -/
theorem claim_C6 (s : DBState) (categoryId : Nat) (c : Category)
    (hfind : s.categories.find? (fun c => c.id == categoryId && c.is_active) = some c) :
    deleteCategory s categoryId =
      Except.ok ("Category with ID " ++ toString categoryId ++ " marked as inactive",
        { s with categories := s.categories.map (fun c =>
            if c.id == categoryId then { c with is_active := false } else c) }) := by
  simp only [deleteCategory, hfind]

/-- Witness for C6: deactivating category 1 of the sample store flips
only that row's `is_active` flag. -/
theorem claim_C6_witness :
    deleteCategory sampleState 1 =
      Except.ok ("Category with ID " ++ toString 1 ++ " marked as inactive",
        { sampleState with categories := sampleState.categories.map (fun c =>
            if c.id == 1 then { c with is_active := false } else c) }) :=
  claim_C6 sampleState 1 catA (by rfl)

/-- Claim C7: a product update or product delete by an authenticated
seller whose id differs from the product's `seller_id` fails with a 403
Forbidden response (the exception aborts the handler before any write,
so the store keeps its pre-request contents). -/
theorem claim_C7 (s : DBState) (sellerId productId : Nat) (body : ProductCreate) :
    (∀ product, s.products.find? (fun p => p.id == productId) = some product →
      product.seller_id ≠ sellerId →
      updateProduct s sellerId productId body =
        Except.error ⟨403, "You can only update your products"⟩)
    ∧ (∀ product,
        s.products.find? (fun p => p.id == productId && p.is_active) = some product →
        product.seller_id ≠ sellerId →
        deleteProduct s sellerId productId =
          Except.error ⟨403, "You can only delete your products"⟩) := by
  constructor
  · intro product hfind hne
    simp only [updateProduct, hfind]
    have : (product.seller_id != sellerId) = true := by
      simpa using hne
    simp [this]
  · intro product hfind hne
    simp only [deleteProduct, hfind]
    have : (product.seller_id != sellerId) = true := by
      simpa using hne
    simp [this]

/-- Witness for C7: seller 9 can neither update nor delete product 1,
which belongs to seller 1. -/
theorem claim_C7_witness :
    updateProduct sampleState 9 1
        { name := "X", description := none, price := 1, image_url := none,
          stock := 1, category_id := none } =
      Except.error ⟨403, "You can only update your products"⟩
    ∧ deleteProduct sampleState 9 1 =
      Except.error ⟨403, "You can only delete your products"⟩ :=
  ⟨(claim_C7 sampleState 9 1
      { name := "X", description := none, price := 1, image_url := none,
        stock := 1, category_id := none }).1 prod1 (by rfl) (by decide),
   (claim_C7 sampleState 9 1
      { name := "X", description := none, price := 1, image_url := none,
        stock := 1, category_id := none }).2 prod1 (by rfl) (by decide)⟩

/-- Claim C5: creating a category with a parent_id that names no active
category is rejected with the handler's "Parent category not found"
response (HTTP 400) and the store keeps its pre-request contents; with
an active parent the handler returns a new active category appended to
the `categories` table, leaving products and reviews unchanged. -/
theorem claim_C5 (s : DBState) (body : CategoryCreate) (pid : Nat)
    (hp : body.parent_id = some pid) :
    (s.categories.find? (fun c => c.id == pid && c.is_active) = none →
      createCategory s body = Except.error ⟨400, "Parent category not found"⟩)
    ∧ (∀ parent,
        s.categories.find? (fun c => c.id == pid && c.is_active) = some parent →
        createCategory s body =
          Except.ok
            ({ id := s.nextCategoryId, name := body.name,
               parent_id := body.parent_id, is_active := true },
             { s with
                 categories := s.categories ++
                                 [{ id := s.nextCategoryId, name := body.name,
                                    parent_id := body.parent_id,
                                    is_active := true }],
                 nextCategoryId := s.nextCategoryId + 1 })) := by
  constructor
  · intro hnone
    simp only [createCategory, hp, hnone]
  · intro parent hfound
    simp only [createCategory, hp, hfound]

/-- Witness for C5: in the sample store, parent 99 does not exist so the
creation is rejected, while parent 1 is active so the creation succeeds
and returns the new active category `catC`. -/
theorem claim_C5_witness :
    createCategory sampleState { name := "C", parent_id := some 99 } =
      Except.error ⟨400, "Parent category not found"⟩
    ∧ createCategory sampleState { name := "C", parent_id := some 1 } =
      Except.ok (catC,
        { sampleState with categories := sampleState.categories ++ [catC],
                           nextCategoryId := 4 }) :=
  ⟨(claim_C5 sampleState { name := "C", parent_id := some 99 } 99 rfl).1 (by rfl),
   (claim_C5 sampleState { name := "C", parent_id := some 1 } 1 rfl).2 catA (by rfl)⟩

/-- Claim C9 is refuted on `GET /products/category/{id}` (the claim does
hold for `GET /products`): in the sample store product 2 is inactive
(soft-deleted), yet the category listing for category 1 returns it,
because the handler's product query in the live `else` branch carries no
`is_active` filter; `GET /products` over the same store omits it. -/
theorem claim_C9_counterexample :
    getProductsByCategory sampleState 1 = Except.ok [prod1, prod2]
    ∧ prod2.is_active = false
    ∧ getAllProducts sampleState = [prod1] := ⟨rfl, rfl, rfl⟩

/-- Claim C10: `PUT /products/{id}` looks the product up without an
`is_active` filter, so the owning seller can update an inactive product
and the handler returns it, while `GET /products/{id}` and
`DELETE /products/{id}` on the same inactive product answer 404.  The
`huniq` hypothesis states that the target id names a single row, as the
primary key guarantees in the real store. -/
theorem claim_C10 (s : DBState) (sellerId productId : Nat) (body : ProductCreate)
    (product : Product)
    (hfind : s.products.find? (fun p => p.id == productId) = some product)
    (hinactive : product.is_active = false)
    (howner : product.seller_id = sellerId)
    (hcat : body.category_id = none)
    (huniq : ∀ p ∈ s.products, p.id = productId → p = product) :
    updateProduct s sellerId productId body =
      Except.ok (product,
        { s with products := s.products.map (fun p =>
            if p.id == productId then
              { p with name := body.name, description := body.description,
                       price := body.price, image_url := body.image_url,
                       stock := body.stock,
                       category_id := body.category_id.getD p.category_id }
            else p) })
    ∧ getProduct s productId = Except.error ⟨404, "Product not found"⟩
    ∧ deleteProduct s sellerId productId = Except.error ⟨404, "Product not found"⟩ := by
  have hnone : s.products.find? (fun p => p.id == productId && p.is_active) = none := by
    rw [List.find?_eq_none]
    intro p hp hcontra
    simp only [Bool.and_eq_true, beq_iff_eq] at hcontra
    have hpe := huniq p hp hcontra.1
    rw [hpe, hinactive] at hcontra
    exact Bool.false_ne_true hcontra.2
  refine ⟨?_, ?_, ?_⟩
  · have hb : (product.seller_id != sellerId) = false := by
      simp [howner]
    simp only [updateProduct, hfind, hb, hcat, Bool.false_eq_true, if_false]
  · simp only [getProduct, hnone]
  · simp only [deleteProduct, hnone]

/-- Witness for C10: seller 1 updates inactive product 2 successfully,
while the point lookup and the delete answer 404 on it. -/
theorem claim_C10_witness :
    updateProduct sampleState 1 2
        { name := "P2b", description := none, price := 21, image_url := none,
          stock := 4, category_id := none } =
      Except.ok (prod2,
        { sampleState with products := sampleState.products.map (fun p =>
            if p.id == 2 then
              { p with name := "P2b", description := none, price := 21,
                       image_url := none, stock := 4,
                       category_id := (none : Option Nat).getD p.category_id }
            else p) })
    ∧ getProduct sampleState 2 = Except.error ⟨404, "Product not found"⟩
    ∧ deleteProduct sampleState 1 2 = Except.error ⟨404, "Product not found"⟩ :=
  claim_C10 sampleState 1 2
    { name := "P2b", description := none, price := 21, image_url := none,
      stock := 4, category_id := none }
    prod2 (by rfl) (by rfl) (by rfl) (by rfl) (by decide)

/-- Claim C3: a review-creation request whose grade lies outside 1–5 is
rejected at commit by the `check_grade_range` constraint; the handler
rolls the transaction back and answers with the 400 integrity-error
response, so neither the review row nor any rating write is persisted
(the error return carries no store mutation). -/
theorem claim_C3 (s : DBState) (buyerId : Nat) (body : ReviewCreate)
    (hbad : body.grade < 1 ∨ 5 < body.grade) :
    ∀ product,
      s.products.find? (fun p => p.id == body.product_id && p.is_active) = some product →
      createReview s buyerId body =
        Except.error ⟨400, "Integrity Error: check_grade_range"⟩ := by
  intro product hfind
  have hg : gradeInRange body.grade = false := by
    rcases hbad with h | h <;> simp [gradeInRange] <;> omega
  simp only [createReview, hfind, hg, Bool.not_false, if_true]

/-- Witness for C3: a grade-6 review of the active product 1 is rejected
with the integrity-error response. -/
theorem claim_C3_witness :
    createReview sampleState 2 { product_id := 1, comment := "bad", grade := 6 } =
      Except.error ⟨400, "Integrity Error: check_grade_range"⟩ :=
  claim_C3 sampleState 2 { product_id := 1, comment := "bad", grade := 6 }
    (Or.inr (by decide)) prod1 (by rfl)

/-- The rating the handlers write is exactly the spec's derived rating:
`round2` of the average with the NULL-to-0 default, because rounding 0
gives 0. -/
theorem specRating_eq_round2_getD (reviews : List Review) (pid : Nat) :
    specRating reviews pid = round2 ((avgGrade reviews pid).getD 0) := by
  unfold specRating
  cases h : avgGrade reviews pid with
  | none =>
      simp only [Option.getD_none]
      rw [round2]
      norm_num
  | some a => simp

/-- Every row of the rating-update map that carries the target id holds
the written rating. -/
theorem rating_of_updated_row (products : List Product) (pid : Nat) (q : ℚ) :
    ∀ p ∈ products.map (fun p =>
        if p.id == pid then { p with rating := q } else p),
      p.id = pid → p.rating = q := by
  intro p hp hpid
  rcases List.mem_map.mp hp with ⟨a, _, hfa⟩
  by_cases h : (a.id == pid) = true
  · rw [if_pos h] at hfa
    rw [← hfa]
  · rw [if_neg h] at hfa
    rw [← hfa] at hpid
    exact absurd (beq_iff_eq.mpr hpid) h

/-- A successful `delete_review` writes the spec's derived rating into
every product row carrying the deactivated review's product id. -/
theorem deleteReview_writes_specRating (s : DBState) (reviewId : Nat)
    (review : Review) (msg : String) (s' : DBState)
    (hfindr : s.reviews.find? (fun r => r.is_active && r.id == reviewId) = some review)
    (hok : deleteReview s reviewId = Except.ok (msg, s')) :
    ∀ p ∈ s'.products, p.id = review.product_id →
      p.rating = specRating s'.reviews review.product_id := by
  simp only [deleteReview, hfindr, Except.ok.injEq, Prod.mk.injEq] at hok
  obtain ⟨-, hs⟩ := hok
  subst hs
  intro p hp hpid
  rw [specRating_eq_round2_getD]
  exact rating_of_updated_row s.products review.product_id _ p hp hpid

/-- Claim C1: after a successful review creation and after a successful
review deactivation, the rating of the review's product equals the
2-decimal rounded average of the grades over that product's active
reviews (as recorded in the resulting store), with 0 standing in when no
active review remains. -/
theorem claim_C1 (s : DBState) (buyerId reviewId : Nat) (body : ReviewCreate) :
    (∀ rev s', createReview s buyerId body = Except.ok (rev, s') →
      ∀ p ∈ s'.products, p.id = body.product_id →
        p.rating = specRating s'.reviews body.product_id)
    ∧ (∀ review,
        s.reviews.find? (fun r => r.is_active && r.id == reviewId) = some review →
        ∀ msg s', deleteReview s reviewId = Except.ok (msg, s') →
          ∀ p ∈ s'.products, p.id = review.product_id →
            p.rating = specRating s'.reviews review.product_id) := by
  constructor
  · intro rev s' hok
    cases hfind : s.products.find? (fun p => p.id == body.product_id && p.is_active) with
    | none =>
        simp only [createReview, hfind] at hok
        exact Except.noConfusion hok
    | some product =>
        simp only [createReview, hfind] at hok
        by_cases hg : gradeInRange body.grade
        · simp only [hg, Bool.not_true, Bool.false_eq_true, if_false,
                     Except.ok.injEq, Prod.mk.injEq] at hok
          obtain ⟨-, hs⟩ := hok
          subst hs
          intro p hp hpid
          rw [specRating_eq_round2_getD]
          exact rating_of_updated_row s.products body.product_id _ p hp hpid
        · simp only [hg, Bool.not_false, if_true] at hok
          exact Except.noConfusion hok
  · intro review hfindr msg s' hok
    exact deleteReview_writes_specRating s reviewId review msg s' hfindr hok

/-- Witness for C1: creating a grade-2 review of product 1 (which had
one active grade-4 review) writes the spec's derived rating into the
product row, and that rating evaluates to round((4+2)/2, 2) = 3. -/
theorem claim_C1_witness :
    ({ prod1 with
        rating := round2 ((avgGrade [rev1, rev2] 1).getD 0) } : Product).rating =
      specRating sampleStateAfterCreateReview.reviews 1
    ∧ specRating sampleStateAfterCreateReview.reviews 1 = 3 :=
  ⟨(claim_C1 sampleState 3 1 { product_id := 1, comment := "meh", grade := 2 }).1
      rev2 sampleStateAfterCreateReview (by rfl)
      { prod1 with rating := round2 ((avgGrade [rev1, rev2] 1).getD 0) }
      (List.mem_cons_self _ _) rfl,
   by norm_num [sampleStateAfterCreateReview, specRating, avgGrade, activeGrades,
                rev1, rev2, round2]⟩

/-- Claim C2: after a successful review deactivation that leaves the
product with no active review, the product's rating is 0. -/
theorem claim_C2 (s : DBState) (reviewId : Nat) (review : Review)
    (msg : String) (s' : DBState)
    (hfindr : s.reviews.find? (fun r => r.is_active && r.id == reviewId) = some review)
    (hok : deleteReview s reviewId = Except.ok (msg, s'))
    (hempty : activeGrades s'.reviews review.product_id = []) :
    ∀ p ∈ s'.products, p.id = review.product_id → p.rating = 0 := by
  intro p hp hpid
  have h1 : p.rating = specRating s'.reviews review.product_id :=
    deleteReview_writes_specRating s reviewId review msg s' hfindr hok p hp hpid
  rw [h1]
  simp only [specRating, avgGrade, hempty, List.isEmpty_nil, if_true]

/-- Witness for C2: deactivating review 1 of the sample store leaves
product 1 with no active review, and the recomputed rating of the
product row is 0. -/
theorem claim_C2_witness :
    ({ prod1 with rating := round2 0 } : Product).rating = 0 :=
  claim_C2 sampleState 1 rev1 "Review marked as inactive" sampleStateAfterDelete
    (by rfl) (by rfl) (by rfl)
    { prod1 with rating := round2 0 } (List.mem_cons_self _ _) rfl

/-- Claim C8: for an existing active category, the category product
listing succeeds and returns exactly the products whose category_id is
the queried id or the id of an active immediate child of it; in
particular the products of an active child category are included. -/
theorem claim_C8 (s : DBState) (categoryId : Nat) (c : Category)
    (hfind : s.categories.find? (fun c => c.id == categoryId && c.is_active) = some c) :
    getProductsByCategory s categoryId =
      Except.ok (s.products.filter (fun p =>
        (categoryId :: activeChildIds s categoryId).contains p.category_id))
    ∧ ∀ p, p ∈ s.products.filter (fun p =>
          (categoryId :: activeChildIds s categoryId).contains p.category_id) ↔
        p ∈ s.products ∧
        (p.category_id = categoryId ∨
          ∃ b ∈ s.categories, b.is_active = true ∧ b.parent_id = some categoryId ∧
            p.category_id = b.id) := by
  refine ⟨?_, ?_⟩
  · simp only [getProductsByCategory, hfind]
  · intro p
    simp only [List.mem_filter, List.elem_eq_mem, List.mem_cons, decide_eq_true_eq,
               activeChildIds, List.mem_map, Bool.and_eq_true, beq_iff_eq]
    constructor
    · rintro ⟨hp, hcase⟩
      rcases hcase with h | ⟨b, ⟨hb, hbp, hba⟩, hbid⟩
      · exact ⟨hp, Or.inl h⟩
      · exact ⟨hp, Or.inr ⟨b, hb, hba, hbp, hbid.symm⟩⟩
    · rintro ⟨hp, h | ⟨b, hb, hba, hbp, hbid⟩⟩
      · exact ⟨hp, Or.inl h⟩
      · exact ⟨hp, Or.inr ⟨b, ⟨hb, hbp, hba⟩, hbid.symm⟩⟩

/-- Witness for C8: querying category 1 of the sample store succeeds
with the broadened filter, and product 2 — which sits in the active
child category 2 — is among the results. -/
theorem claim_C8_witness :
    getProductsByCategory sampleState 1 =
      Except.ok (sampleState.products.filter (fun p =>
        (1 :: activeChildIds sampleState 1).contains p.category_id))
    ∧ prod2 ∈ sampleState.products.filter (fun p =>
        (1 :: activeChildIds sampleState 1).contains p.category_id) :=
  ⟨(claim_C8 sampleState 1 catA (by rfl)).1,
   ((claim_C8 sampleState 1 catA (by rfl)).2 prod2).mpr
     ⟨List.mem_cons_of_mem _ (List.mem_cons_self _ _),
      Or.inr ⟨catB, List.mem_cons_of_mem _ (List.mem_cons_self _ _), rfl, rfl, rfl⟩⟩⟩

/-- Claim C4, first half: updating an existing active category with a
parent_id equal to its own id is rejected with the handler's 400
"Category cannot be its own parent" response (the exception aborts the
handler before the write).  Second half: the invariant that no category
is its own parent is preserved by every category operation — creation
(given the auto-increment counter is ahead of every existing id, as the
primary key guarantees), update and deactivation. -/
theorem claim_C4 (s : DBState) (categoryId : Nat) (body : CategoryUpdateBody)
    (cbody : CategoryCreate) :
    ((∃ c, s.categories.find? (fun x => x.id == categoryId && x.is_active) = some c) →
      body.parent_field = some (some categoryId) →
      updateCategory s categoryId body =
        Except.error ⟨400, "Category cannot be its own parent"⟩)
    ∧ (NoSelfParent s →
        (CategoryIdsFresh s →
          ∀ cat s', createCategory s cbody = Except.ok (cat, s') → NoSelfParent s')
        ∧ (∀ cat s', updateCategory s categoryId body = Except.ok (cat, s') →
            NoSelfParent s')
        ∧ (∀ msg s', deleteCategory s categoryId = Except.ok (msg, s') →
            NoSelfParent s')) := by
  constructor
  · rintro ⟨c, hc⟩ hpf
    have hmem := List.mem_of_find?_eq_some hc
    have hprop := List.find?_some hc
    simp only [Bool.and_eq_true, beq_iff_eq] at hprop
    have hsome : (s.categories.find? (fun x => x.id == categoryId)).isSome :=
      List.find?_isSome.mpr ⟨c, hmem, beq_iff_eq.mpr hprop.1⟩
    obtain ⟨parent, hpar⟩ := Option.isSome_iff_exists.mp hsome
    have hpid : (parent.id == categoryId) = true := by
      have h := List.find?_some hpar
      simpa using h
    simp only [updateCategory, hc, hpf, hpar, hpid, if_true]
  · intro hinv
    refine ⟨?_, ?_, ?_⟩
    · intro hfresh cat s' hok
      cases hpid : cbody.parent_id with
      | none =>
          simp only [createCategory, hpid, Except.ok.injEq, Prod.mk.injEq] at hok
          obtain ⟨-, hs⟩ := hok
          subst hs
          intro c hc
          rcases List.mem_append.mp hc with h | h
          · exact hinv c h
          · have hceq := List.mem_singleton.mp h
            subst hceq
            simp [hpid]
      | some pid =>
          cases hfindp : s.categories.find? (fun x => x.id == pid && x.is_active) with
          | none =>
              simp only [createCategory, hpid, hfindp] at hok
              exact Except.noConfusion hok
          | some parent =>
              simp only [createCategory, hpid, hfindp, Except.ok.injEq,
                         Prod.mk.injEq] at hok
              obtain ⟨-, hs⟩ := hok
              subst hs
              intro c hc
              rcases List.mem_append.mp hc with h | h
              · exact hinv c h
              · have hceq := List.mem_singleton.mp h
                subst hceq
                have hparent_prop := List.find?_some hfindp
                simp only [Bool.and_eq_true, beq_iff_eq] at hparent_prop
                have hlt := hfresh parent (List.mem_of_find?_eq_some hfindp)
                simp only [hpid, ne_eq, Option.some.injEq]
                omega
    · intro cat s' hok
      cases hfindc : s.categories.find? (fun x => x.id == categoryId && x.is_active) with
      | none =>
          simp only [updateCategory, hfindc] at hok
          exact Except.noConfusion hok
      | some dbCategory =>
          cases hpf : body.parent_field with
          | none =>
              simp only [updateCategory, hfindc, hpf, Except.ok.injEq,
                         Prod.mk.injEq] at hok
              obtain ⟨-, hs⟩ := hok
              subst hs
              intro c hc
              rcases List.mem_map.mp hc with ⟨a, ha, hfa⟩
              by_cases haid : (a.id == categoryId) = true
              · rw [if_pos haid] at hfa
                subst hfa
                simpa using hinv a ha
              · rw [if_neg haid] at hfa
                subst hfa
                exact hinv a ha
          | some pf =>
              cases pf with
              | none =>
                  simp only [updateCategory, hfindc, hpf, Except.ok.injEq,
                             Prod.mk.injEq] at hok
                  obtain ⟨-, hs⟩ := hok
                  subst hs
                  intro c hc
                  rcases List.mem_map.mp hc with ⟨a, ha, hfa⟩
                  by_cases haid : (a.id == categoryId) = true
                  · rw [if_pos haid] at hfa
                    subst hfa
                    simp
                  · rw [if_neg haid] at hfa
                    subst hfa
                    exact hinv a ha
              | some pid =>
                  cases hfindp : s.categories.find? (fun x => x.id == pid) with
                  | none =>
                      simp only [updateCategory, hfindc, hpf, hfindp] at hok
                      exact Except.noConfusion hok
                  | some parent =>
                      by_cases hpp : (parent.id == categoryId) = true
                      · simp only [updateCategory, hfindc, hpf, hfindp, hpp,
                                   if_true] at hok
                        exact Except.noConfusion hok
                      · simp only [updateCategory, hfindc, hpf, hfindp, hpp,
                                   Bool.false_eq_true, if_false, Except.ok.injEq,
                                   Prod.mk.injEq] at hok
                        obtain ⟨-, hs⟩ := hok
                        subst hs
                        have hpeq : parent.id = pid := by
                          have h := List.find?_some hfindp
                          simpa using h
                        intro c hc
                        rcases List.mem_map.mp hc with ⟨a, ha, hfa⟩
                        by_cases haid : (a.id == categoryId) = true
                        · rw [if_pos haid] at hfa
                          subst hfa
                          have haeq : a.id = categoryId := beq_iff_eq.mp haid
                          simp only [ne_eq, Option.getD_some, Option.some.injEq]
                          intro hcontra
                          apply hpp
                          rw [beq_iff_eq, hpeq, hcontra, haeq]
                        · rw [if_neg haid] at hfa
                          subst hfa
                          exact hinv a ha
    · intro msg s' hok
      cases hfindc : s.categories.find? (fun x => x.id == categoryId && x.is_active) with
      | none =>
          simp only [deleteCategory, hfindc] at hok
          exact Except.noConfusion hok
      | some c0 =>
          simp only [deleteCategory, hfindc, Except.ok.injEq, Prod.mk.injEq] at hok
          obtain ⟨-, hs⟩ := hok
          subst hs
          intro c hc
          rcases List.mem_map.mp hc with ⟨a, ha, hfa⟩
          by_cases haid : (a.id == categoryId) = true
          · rw [if_pos haid] at hfa
            subst hfa
            simpa using hinv a ha
          · rw [if_neg haid] at hfa
            subst hfa
            exact hinv a ha

/-- Witness for C4: making category 1 its own parent is rejected with
the 400 response, and the no-self-parent invariant survives a concrete
category creation and a concrete category deactivation. -/
theorem claim_C4_witness :
    updateCategory sampleState 1 { name := "A2", parent_field := some (some 1) } =
      Except.error ⟨400, "Category cannot be its own parent"⟩
    ∧ NoSelfParent sampleStateAfterCreate
    ∧ NoSelfParent sampleStateAfterCatDelete :=
  ⟨(claim_C4 sampleState 1 { name := "A2", parent_field := some (some 1) }
      { name := "C", parent_id := some 1 }).1 ⟨catA, rfl⟩ rfl,
   (((claim_C4 sampleState 1 { name := "A2", parent_field := some (some 1) }
      { name := "C", parent_id := some 1 }).2 (by unfold NoSelfParent; decide)).1
      (by unfold CategoryIdsFresh; decide)
      catC sampleStateAfterCreate (by rfl)),
   (((claim_C4 sampleState 1 { name := "A2", parent_field := some (some 1) }
      { name := "C", parent_id := some 1 }).2 (by unfold NoSelfParent; decide)).2.2
      ("Category with ID " ++ toString 1 ++ " marked as inactive")
      sampleStateAfterCatDelete (by rfl))⟩

end Shop
